import Mathlib

/-!
Verification development for the crisis-management widget
(src/components/VoiceAgent.tsx). The component is a React widget; its
state and callbacks are embedded here as pure functions over an explicit
state record. Times are rationals (the WebAudio clock and buffer
durations), transcript entries mirror the Transcription record, and the
status enumeration mirrors the AgentStatus union type.
-/

/-- AgentStatus union type (VoiceAgent.tsx line 6). -/
inductive AgentStatus where
  | connecting
  | listening
  | processing
  | awaiting
  | buffering
  | speaking
deriving DecidableEq, Repr

/-- Speaker of a transcript entry: the Transcription record field named
type in the source, with values user and model. -/
inductive Speaker where
  | user
  | model
deriving DecidableEq, Repr

/-- Transcription record: text, speaker tag, timestamp (Date.now). -/
structure Entry where
  text : String
  speaker : Speaker
  timestamp : Nat
deriving DecidableEq, Repr

/-- Builds a transcript entry. -/
def entry (text : String) (sp : Speaker) (ts : Nat) : Entry :=
  { text := text, speaker := sp, timestamp := ts }

/-- Component state: the useState values status, transcriptions,
streamingResponse, textInput and audioOutputEnabled, together with the
refs nextStartTimeRef (cursor) and sourcesRef (handles, kept as a list of
source ids standing for the Set of AudioBufferSourceNode). -/
structure AgentState where
  status : AgentStatus
  transcriptions : List Entry
  streamingResponse : String
  textInput : String
  audioOutputEnabled : Bool
  cursor : ℚ
  handles : List Nat
deriving DecidableEq, Repr

/-- State at mount (lines 14-29): status connecting, empty transcript and
buffers, nextStartTimeRef 0, empty source set, audio output enabled. -/
def initState : AgentState :=
  { status := .connecting
    transcriptions := []
    streamingResponse := ""
    textInput := ""
    audioOutputEnabled := true
    cursor := 0
    handles := [] }

/-- Welcome greeting constant (line 31). -/
def WELCOME_TEXT : String :=
  "Welcome to Rich Klein Crisis Management. How can I help you today?"

/-- Scheduling of one decoded chunk (lines 84-88 of playTTS, identically
lines 149-152 of the live-session onmessage callback): the start time is
max of the output clock currentTime and the cursor, the cursor advances
to start plus duration, and the source is registered in the handle set.
Returns the chosen start time together with the new state. -/
def scheduleChunk (now dur : ℚ) (srcId : Nat) (s : AgentState) : ℚ × AgentState :=
  let startTime := max now s.cursor
  (startTime,
    { s with cursor := startTime + dur, handles := s.handles ++ [srcId] })

/-- Start and end times produced by scheduling a sequence of chunks, each
given as (arrival clock time, duration), through scheduleChunk. -/
def schedTimes : List (ℚ × ℚ) → AgentState → List (ℚ × ℚ)
  | [], _ => []
  | (now, dur) :: rest, s =>
    let r := scheduleChunk now dur 0 s
    (r.1, r.2.cursor) :: schedTimes rest r.2

/-- Holds when every chunk of the list arrives no later than the cursor
standing when it is scheduled, so playback never drains between chunks. -/
def arrivesByCursor : List (ℚ × ℚ) → ℚ → Bool
  | [], _ => true
  | (now, dur) :: rest, c => decide (now ≤ c) && arrivesByCursor rest (max now c + dur)

/-- Back-to-back arrival: the first chunk may arrive at any time, and
every later chunk arrives while the previously scheduled audio has not
yet drained (its arrival time is at most the cursor then standing). -/
def backToBack : List (ℚ × ℚ) → ℚ → Bool
  | [], _ => true
  | (now, dur) :: rest, c => arrivesByCursor rest (max now c + dur)

/-- Playback state of an AudioBufferSourceNode that has been started. -/
inductive SourceState where
  | playing
  | finished
  | stopped
deriving DecidableEq, Repr

/-- Effect of the guarded stop call in stopAllAudio (line 43):
try s.stop() catch, so a node whose playback already finished is left
as it is and any thrown error is swallowed; the call is total and
returns normally for every node state. -/
def tryStop (st : SourceState) : SourceState :=
  match st with
  | .finished => .finished
  | _ => .stopped

/-- stopAllAudio (lines 41-48): stop every source in the set, clear the
set, reset nextStartTimeRef to 0 and set the status to listening. -/
def stopAllAudio (s : AgentState) : AgentState :=
  { s with handles := [], cursor := 0, status := .listening }

/-- Playback states of the members of the handle set after stopAllAudio
ran their stop calls (line 42-44): each member passes through tryStop. -/
def stopAllAudioSources (srcs : List SourceState) : List SourceState :=
  srcs.map tryStop

/-- Outcome of the synthesis request inside playTTS. -/
inductive TTSOutcome where
  | audio (now dur : ℚ) (srcId : Nat)
  | noAudio
  | failed
deriving Repr

/-- Final state of playTTS (lines 56-96): return unchanged when audio
output is disabled (line 57); otherwise set buffering, and on a
successful synthesis with audio data set speaking (line 75) and schedule
the chunk (lines 84-88); when no audio data comes back (lines 89-91) or
the request throws (lines 92-95) set listening. -/
def playTTS (o : TTSOutcome) (s : AgentState) : AgentState :=
  if s.audioOutputEnabled = false then s
  else
    match o with
    | .audio now dur srcId =>
        (scheduleChunk now dur srcId { s with status := .speaking }).2
    | .noAudio => { s with status := .listening }
    | .failed => { s with status := .listening }

/-- Sequence of observable states during a playTTS call whose synthesis
succeeds and returns audio: the state on entry, after setStatus
buffering (line 59), after setStatus speaking (line 75, which precedes
the decode await and the registration of the source at line 88), and
after the chunk is scheduled and registered (lines 84-88). -/
def playTTSSuccessTrace (now dur : ℚ) (srcId : Nat) (s : AgentState) : List AgentState :=
  if s.audioOutputEnabled = false then [s]
  else
    let s1 := { s with status := AgentStatus.buffering }
    let s2 := { s1 with status := AgentStatus.speaking }
    let s3 := (scheduleChunk now dur srcId s2).2
    [s, s1, s2, s3]

/-- Handler installed as source.onended (lines 80-83 and 154-157):
remove the source from the set and, when the set became empty, set the
status to listening. -/
def onended (srcId : Nat) (s : AgentState) : AgentState :=
  let hs := s.handles.erase srcId
  { s with handles := hs
           status := if hs.isEmpty then .listening else s.status }

/-- Models the JS String trim used on the text input (lines 189, 325):
drop leading and trailing whitespace characters. -/
def trimmed (t : String) : String :=
  ⟨((t.data.dropWhile Char.isWhitespace).reverse.dropWhile Char.isWhitespace).reverse⟩

/-- Stream accumulation step (lines 211-214): fullText is extended by
chunk.text or the empty string when the fragment carries no text, and
streamingResponse is set to the accumulated fullText. The pair is
(fullText, streamingResponse). -/
def streamStep (acc : String × String) (c : Option String) : String × String :=
  let full := acc.1 ++ c.getD ""
  (full, full)

/-- Whole stream loop of handleSendText starting from the empty
accumulator and the cleared streaming buffer. -/
def runStream (chunks : List (Option String)) : String × String :=
  chunks.foldl streamStep ("", "")

/-- Concatenation of the fragments of a stream in arrival order, an
absent fragment contributing the empty string. -/
def concatFragments (chunks : List (Option String)) : String :=
  String.join (chunks.map (fun c => c.getD ""))

/-- Commit on stream completion (lines 215-216): append one model entry
holding the accumulated fullText and clear the streaming buffer. -/
def commitStream (chunks : List (Option String)) (ts : Nat) (s : AgentState) : AgentState :=
  { s with transcriptions :=
             s.transcriptions ++ [entry (runStream chunks).1 .model ts]
           streamingResponse := "" }

/-- Synthetic entry text of the handleSendText catch handler (line 220). -/
def COMM_FAILURE_TEXT : String := "Communication line interrupted. Re-syncing..."

/-- Synthetic entry text of the engine-recovery branch (line 200). -/
def LINK_FAILURE_TEXT : String :=
  "Strategic Link Failure. Please ensure environment credentials are set."

/-- Catch handler of playTTS (lines 92-95): a console warning and
setStatus listening; the transcript is not touched. -/
def playTTS_onFailure (s : AgentState) : AgentState :=
  { s with status := .listening }

/-- Catch handler of handleSendText (lines 218-222): append a synthetic
model entry and set the status to listening. -/
def handleSendText_onFailure (ts : Nat) (s : AgentState) : AgentState :=
  { s with transcriptions := s.transcriptions ++ [entry COMM_FAILURE_TEXT .model ts]
           status := .listening }

/-- Catch handler of establishSecureLine (lines 165-168), covering
microphone permission denial and live-connect failure: a console error
and setStatus listening; the transcript is not touched. -/
def establishSecureLine_onFailure (s : AgentState) : AgentState :=
  { s with status := .listening }

/-- onerror callback of the live session (line 160): setStatus
listening only. -/
def live_onError (s : AgentState) : AgentState :=
  { s with status := .listening }

/-- Mount branch taken when initStrategicEngine returns false
(lines 174-175): setStatus listening only. -/
def mount_onEngineFailure (s : AgentState) : AgentState :=
  { s with status := .listening }

/-- initStrategicEngine (lines 98-115): fail when the API key is absent,
empty or the literal string undefined (line 100, where the JS falsiness
test also rejects the empty string); otherwise the chat handle is
created, whose success is the createOk input since the SDK call is
external to this repository. -/
def initStrategicEngine (apiKey : Option String) (createOk : Bool) : Bool :=
  match apiKey with
  | none => false
  | some k => if k.isEmpty || k == "undefined" then false else createOk

/-- Synchronous transcript and status effects of the mount effect
(lines 117-182): place the welcome entry as the whole initial transcript
(line 121); when the engine initializes and the microphone is off, set
listening (line 172); when it initializes with the microphone on, the
secure line is still being established asynchronously, so the status
remains connecting until its callbacks fire; when initialization fails,
set listening (lines 174-175) with no further transcript change. -/
def mountInit (apiKey : Option String) (createOk micOn : Bool) (ts : Nat)
    (s : AgentState) : AgentState :=
  let s1 := { s with transcriptions := [entry WELCOME_TEXT .model ts] }
  if initStrategicEngine apiKey createOk then
    if micOn then s1 else { s1 with status := .listening }
  else
    { s1 with status := .listening }

/-- Engine-recovery branch of handleSendText (lines 197-204), taken when
no chat handle exists and re-initialization fails: append the link
failure entry and set listening. -/
def handleSendText_noEngine (ts : Nat) (s : AgentState) : AgentState :=
  { s with transcriptions := s.transcriptions ++ [entry LINK_FAILURE_TEXT .model ts]
           status := .listening }

/-- Whole handleSendText path of a send made while no chat handle exists
and re-initialization fails (lines 188-204): trim the input and return
unchanged when empty (189-190); append the user entry and clear the
input (193-194); stopAllAudio (195); then the recovery branch appends
the link failure entry and sets listening (198-203). -/
def handleSendTextNoEngine (tsU tsE : Nat) (s : AgentState) : AgentState :=
  let msg := trimmed s.textInput
  if msg.isEmpty then s
  else
    let s1 := { s with transcriptions := s.transcriptions ++ [entry msg .user tsU]
                       textInput := "" }
    let s2 := stopAllAudio s1
    handleSendText_noEngine tsE s2

/-- Disabled condition of the SEND button (line 325): empty trimmed
input, a nonempty streaming reply, or status processing or awaiting. -/
def sendDisabled (textInput streamingResponse : String) (status : AgentStatus) : Bool :=
  (trimmed textInput).isEmpty || !streamingResponse.isEmpty
    || status == .processing || status == .awaiting

/-- Enter-key path of the text input (line 318): handleSendText is
invoked whenever the pressed key is Enter, with no disabled check; the
handler itself (lines 189-190) returns early only when the trimmed input
is empty, so a turn is submitted exactly when the key is Enter and the
trimmed input is nonempty. -/
def enterSubmitsTurn (key textInput : String) : Bool :=
  key == "Enter" && !(trimmed textInput).isEmpty

/-- Submit paths of the widget: the SEND button and the Enter key. -/
inductive SubmitPath where
  | button
  | enterKey
deriving DecidableEq, Repr

/-- Whether a given path submits a turn in the given UI state. -/
def canSubmit (p : SubmitPath) (key textInput streamingResponse : String)
    (status : AgentStatus) : Bool :=
  match p with
  | .button => !(sendDisabled textInput streamingResponse status)
  | .enterKey => enterSubmitsTurn key textInput

/-- Operations of the component that write the transcriptions state. -/
inductive TranscriptOp where
  | mountWelcome (ts : Nat)
  | userSend (msg : String) (ts : Nat)
  | linkFailure (ts : Nat)
  | commitModel (chunks : List (Option String)) (ts : Nat)
  | commFailure (ts : Nat)

/-- Effect of each transcript write: the mount effect places the welcome
entry as the whole transcript (line 121, guarded by the initialized ref
so it runs once on the empty transcript); every other write appends one
entry at the end (lines 193, 200, 215, 220). -/
def applyTranscriptOp (op : TranscriptOp) (t : List Entry) : List Entry :=
  match op with
  | .mountWelcome ts => [entry WELCOME_TEXT .model ts]
  | .userSend msg ts => t ++ [entry msg .user ts]
  | .linkFailure ts => t ++ [entry LINK_FAILURE_TEXT .model ts]
  | .commitModel cs ts => t ++ [entry (runStream cs).1 .model ts]
  | .commFailure ts => t ++ [entry COMM_FAILURE_TEXT .model ts]

/-- Success path of handleSendText (lines 188-217) for a turn whose
stream completes: trim the input and return unchanged when empty
(lines 189-190); append the user entry and clear the input (lines
193-194); stopAllAudio (line 195); setStatus processing then awaiting
(lines 206-208); run the stream, leaving streamingResponse at the
accumulated text (lines 210-214); commit the model entry and clear the
buffer (lines 215-216); finally call playTTS on the full text
(line 217). -/
def handleSendTextSuccess (o : TTSOutcome) (chunks : List (Option String))
    (tsU tsM : Nat) (s : AgentState) : AgentState :=
  let msg := trimmed s.textInput
  if msg.isEmpty then s
  else
    let s1 := { s with transcriptions := s.transcriptions ++ [entry msg .user tsU]
                       textInput := "" }
    let s2 := stopAllAudio s1
    let s3 := { s2 with status := AgentStatus.processing }
    let s4 := { s3 with status := AgentStatus.awaiting }
    let s5 := { s4 with streamingResponse := (runStream chunks).2 }
    let s6 := commitStream chunks tsM s5
    playTTS o s6

/-- Agent state right before the mount greeting playTTS call: mount ran
with a valid credential and the microphone off, so the transcript is the
welcome entry, the status listening, and the handle set empty. -/
def greetState : AgentState := mountInit (some "key") true false 0 initState

/-- State reached after scheduling one chunk of duration 5 at clock time
0: the cursor stands at 5. -/
def c4State : AgentState := (scheduleChunk 0 5 0 initState).2

/-- State after mount with the literal undefined credential. -/
def badCredMount : AgentState := mountInit (some "undefined") true false 0 initState

/-- State with audio output disabled and a pending nonempty input. -/
def audioOffState : AgentState :=
  { initState with audioOutputEnabled := false, textInput := "hello" }

lemma schedTimes_head_start (cs : List (ℚ × ℚ)) (s : AgentState) :
    ∀ p ∈ (schedTimes cs s).head?, s.cursor ≤ p.1 := by
  cases cs with
  | nil => intro p hp; simp [schedTimes] at hp
  | cons c rest =>
    intro p hp
    obtain ⟨now, dur⟩ := c
    simp [schedTimes, scheduleChunk] at hp
    subst hp
    exact le_max_right _ _

lemma schedTimes_chain (cs : List (ℚ × ℚ)) (s : AgentState) :
    List.Chain' (fun a b : ℚ × ℚ => a.2 ≤ b.1) (schedTimes cs s) := by
  induction cs generalizing s with
  | nil => simp [schedTimes]
  | cons c rest ih =>
    obtain ⟨now, dur⟩ := c
    rw [schedTimes, List.chain'_cons']
    refine ⟨?_, ih _⟩
    intro p hp
    have := schedTimes_head_start rest (scheduleChunk now dur 0 s).2 p hp
    simpa [scheduleChunk] using this

lemma schedTimes_getLast_end (cs : List (ℚ × ℚ)) (s : AgentState)
    (h : arrivesByCursor cs s.cursor = true) :
    ∀ l ∈ (schedTimes cs s).getLast?, l.2 = s.cursor + (cs.map Prod.snd).sum := by
  induction cs generalizing s with
  | nil => intro l hl; simp [schedTimes] at hl
  | cons c rest ih =>
    obtain ⟨now, dur⟩ := c
    intro l hl
    rw [arrivesByCursor, Bool.and_eq_true, decide_eq_true_eq] at h
    obtain ⟨hle, hrest⟩ := h
    have hmax : max now s.cursor = s.cursor := max_eq_right hle
    cases rest with
    | nil =>
      simp [schedTimes, scheduleChunk, hmax] at hl
      subst hl
      simp
    | cons c2 rest2 =>
      obtain ⟨now2, dur2⟩ := c2
      have hcur : (scheduleChunk now dur 0 s).2.cursor = s.cursor + dur := by
        simp [scheduleChunk, hmax]
      have hrest' : arrivesByCursor ((now2, dur2) :: rest2)
          (scheduleChunk now dur 0 s).2.cursor = true := by
        rw [hcur, ← hmax]
        exact hrest
      have htail := ih (scheduleChunk now dur 0 s).2 hrest'
      rw [schedTimes, schedTimes, List.getLast?_cons_cons] at hl
      have hmem : l ∈ (schedTimes ((now2, dur2) :: rest2) (scheduleChunk now dur 0 s).2).getLast? := by
        rw [schedTimes]
        exact hl
      have := htail l hmem
      rw [this, hcur]
      simp only [List.map_cons, List.sum_cons]
      ring

lemma runStream_fst_eq (chunks : List (Option String)) :
    ∀ a b : String, (chunks.foldl streamStep (a, b)).1
      = (chunks.map (fun c => c.getD "")).foldl (fun r t => r ++ t) a := by
  induction chunks with
  | nil => intro a b; rfl
  | cons c cs ih =>
    intro a b
    simpa [streamStep] using ih (a ++ c.getD "") (a ++ c.getD "")

lemma runStream_eq_concat (chunks : List (Option String)) :
    (runStream chunks).1 = concatFragments chunks := by
  rw [runStream, runStream_fst_eq, concatFragments, String.join]

lemma runStream_snd_eq_fst (chunks : List (Option String)) :
    (runStream chunks).2 = (runStream chunks).1 := by
  rw [runStream]
  have h : ∀ a : String, ((chunks.foldl streamStep (a, a)).2
      = (chunks.foldl streamStep (a, a)).1) := by
    induction chunks with
    | nil => intro a; rfl
    | cons c cs ih => intro a; simpa [streamStep] using ih (a ++ c.getD "")
  exact h ""

/-- C1: every synthesized chunk is scheduled to start at the max of the
output clock time and the cursor, and the cursor then advances by the
chunk duration, so for arbitrary arrival times and durations no chunk
starts before the scheduled end of the chunk before it, and when the
chunks arrive back-to-back the scheduled span from the first start to
the last end equals the sum of the durations. -/
theorem scheduler_no_overlap_and_gapless_span (cs : List (ℚ × ℚ)) (s : AgentState) :
    List.Chain' (fun a b : ℚ × ℚ => a.2 ≤ b.1) (schedTimes cs s) ∧
    (backToBack cs s.cursor = true →
      ∀ f ∈ (schedTimes cs s).head?, ∀ l ∈ (schedTimes cs s).getLast?,
        l.2 - f.1 = (cs.map Prod.snd).sum) := by
  refine ⟨schedTimes_chain cs s, fun hbb => ?_⟩
  cases cs with
  | nil => intro f hf; simp [schedTimes] at hf
  | cons c rest =>
    obtain ⟨now, dur⟩ := c
    intro f hf l hl
    rw [backToBack] at hbb
    rw [schedTimes] at hf hl
    simp at hf
    cases rest with
    | nil =>
      simp [schedTimes, scheduleChunk] at hl
      obtain rfl := hf
      obtain rfl := hl
      simp [scheduleChunk]
    | cons c2 rest2 =>
      obtain ⟨now2, dur2⟩ := c2
      have hcur : (scheduleChunk now dur 0 s).2.cursor = max now s.cursor + dur := by
        simp [scheduleChunk]
      rw [schedTimes, List.getLast?_cons_cons] at hl
      have hmem : l ∈ (schedTimes ((now2, dur2) :: rest2) (scheduleChunk now dur 0 s).2).getLast? := by
        rw [schedTimes]
        exact hl
      have harr : arrivesByCursor ((now2, dur2) :: rest2)
          (scheduleChunk now dur 0 s).2.cursor = true := by
        rw [hcur]
        exact hbb
      have := schedTimes_getLast_end _ _ harr l hmem
      rw [this, hcur]
      obtain rfl := hf
      simp only [scheduleChunk, List.map_cons, List.sum_cons]
      ring

/-- C1 witness at two chunks of durations 2 and 3 where the second
arrives at clock time 1, before the cursor value 2 standing then. -/
theorem scheduler_no_overlap_and_gapless_span_witness :
    backToBack [((0 : ℚ), 2), (1, 3)] initState.cursor = true ∧
    (List.Chain' (fun a b : ℚ × ℚ => a.2 ≤ b.1)
        (schedTimes [((0 : ℚ), 2), (1, 3)] initState) ∧
      ∀ f ∈ (schedTimes [((0 : ℚ), 2), (1, 3)] initState).head?,
        ∀ l ∈ (schedTimes [((0 : ℚ), 2), (1, 3)] initState).getLast?,
          l.2 - f.1 = ([((0 : ℚ), 2), (1, 3)].map Prod.snd).sum) :=
  ⟨by norm_num [backToBack, arrivesByCursor, initState],
    (scheduler_no_overlap_and_gapless_span [((0 : ℚ), 2), (1, 3)] initState).1,
    (scheduler_no_overlap_and_gapless_span [((0 : ℚ), 2), (1, 3)] initState).2
      (by norm_num [backToBack, arrivesByCursor, initState])⟩

/-- C2: evaluation of the code at the failing input. The code sets the
status to speaking (line 75) before the source is registered in the
handle set (line 88), so the successful greeting playTTS call, made while
the handle set is empty, passes through a state whose status is speaking
while the handle set is still empty, against the claimed invariant that
the status is never speaking when the handle set is empty. -/
theorem speaking_with_empty_handles_bug :
    greetState.handles = [] ∧
    ∃ st ∈ playTTSSuccessTrace 0 2 0 greetState,
      st.status = AgentStatus.speaking ∧ st.handles = [] := by
  refine ⟨rfl, { greetState with status := AgentStatus.speaking }, ?_, rfl, rfl⟩
  simp [playTTSSuccessTrace, greetState, mountInit, initStrategicEngine, initState]

/-- C3: an interruption stops every handle in the set (stopping one whose
playback already finished is a no-op and never an error, the stop being
wrapped in a swallowing catch), leaves the handle set empty, resets the
cursor to the time origin, and a chunk scheduled afterwards starts at the
current output clock time instead of the stale cursor value. -/
theorem interruption_clears_and_resets (srcs : List SourceState) (s : AgentState)
    (now dur : ℚ) (srcId : Nat) (hnow : 0 ≤ now) :
    (∀ x ∈ stopAllAudioSources srcs, x ≠ SourceState.playing) ∧
    tryStop SourceState.finished = SourceState.finished ∧
    (stopAllAudio s).handles = [] ∧
    (stopAllAudio s).cursor = 0 ∧
    (scheduleChunk now dur srcId (stopAllAudio s)).1 = now := by
  refine ⟨?_, rfl, rfl, rfl, ?_⟩
  · intro x hx
    simp [stopAllAudioSources] at hx
    obtain ⟨y, hy, rfl⟩ := hx
    cases y <;> simp [tryStop]
  · simp [scheduleChunk, stopAllAudio, max_eq_left hnow]

/-- C3 witness: an interruption over a playing and a finished source at a
state whose cursor stands at 5, followed by a chunk arriving at clock
time 7. -/
theorem interruption_clears_and_resets_witness :
    (0 : ℚ) ≤ 7 ∧
    ((∀ x ∈ stopAllAudioSources [SourceState.playing, SourceState.finished],
        x ≠ SourceState.playing) ∧
      tryStop SourceState.finished = SourceState.finished ∧
      (stopAllAudio c4State).handles = [] ∧
      (stopAllAudio c4State).cursor = 0 ∧
      (scheduleChunk 7 2 0 (stopAllAudio c4State)).1 = 7) :=
  ⟨by norm_num, interruption_clears_and_resets _ _ _ _ _ (by norm_num)⟩

/-- C4 counterexample: after one chunk of duration 5 is scheduled at clock
time 0 the cursor stands at 5; an interruption then resets it to 0, a
strict decrease, and to the time origin rather than the current clock
time, here 1; so the cursor is not monotonically non-decreasing over the
session and the reset is not to the current time. -/
theorem cursor_not_monotone_counterexample :
    c4State.cursor = 5 ∧
    (stopAllAudio c4State).cursor = 0 ∧
    ¬ c4State.cursor ≤ (stopAllAudio c4State).cursor ∧
    (stopAllAudio c4State).cursor ≠ 1 := by
  refine ⟨?_, rfl, ?_, ?_⟩
  · norm_num [c4State, scheduleChunk, initState]
  · norm_num [c4State, scheduleChunk, initState, stopAllAudio]
  · norm_num [stopAllAudio]

/-- C4 amended: the cursor never decreases when a chunk of nonnegative
duration is scheduled, being advanced from the max of clock and cursor by
the duration, and an interruption resets it to the time origin 0, not to
the current time; monotonicity therefore holds between interruptions
only. -/
theorem cursor_monotone_between_interruptions (s : AgentState) (now dur : ℚ)
    (srcId : Nat) (hdur : 0 ≤ dur) :
    s.cursor ≤ (scheduleChunk now dur srcId s).2.cursor ∧
    (scheduleChunk now dur srcId s).2.cursor = max now s.cursor + dur ∧
    (stopAllAudio s).cursor = 0 := by
  refine ⟨?_, rfl, rfl⟩
  calc s.cursor ≤ max now s.cursor := le_max_right _ _
    _ ≤ max now s.cursor + dur := le_add_of_nonneg_right hdur

/-- C4 amended witness: scheduling a chunk of duration 5 at clock time 2
over a fresh state. -/
theorem cursor_monotone_between_interruptions_witness :
    (0 : ℚ) ≤ 5 ∧
    (initState.cursor ≤ (scheduleChunk 2 5 0 initState).2.cursor ∧
      (scheduleChunk 2 5 0 initState).2.cursor = max 2 initState.cursor + 5 ∧
      (stopAllAudio initState).cursor = 0) :=
  ⟨by norm_num, cursor_monotone_between_interruptions _ _ _ _ (by norm_num)⟩

/-- C5 counterexample: a synthesis failure is handled by the playTTS
catch, which moves the status to listening but leaves the transcript
unchanged at the single welcome entry, so no synthetic transcript entry
describing the failure is appended, against the claim. -/
theorem synthesis_failure_appends_no_entry :
    (playTTS_onFailure greetState).status = AgentStatus.listening ∧
    (playTTS_onFailure greetState).transcriptions = greetState.transcriptions ∧
    greetState.transcriptions = [entry WELCOME_TEXT .model 0] :=
  ⟨rfl, rfl, rfl⟩

/-- C5 amended: every failure handler moves the status to listening;
of them, exactly two append a synthetic transcript entry describing the
failure, both inside a send: the streamed text request failure handler
and the engine-initialization failure branch of a send; the synthesis
failure handler, the live-session failure handler, the live onerror
callback and the mount engine-failure branch leave the transcript
unchanged. -/
theorem failure_handlers_listening_and_append_sites (s : AgentState) (ts : Nat) :
    (playTTS_onFailure s).status = AgentStatus.listening ∧
    (playTTS_onFailure s).transcriptions = s.transcriptions ∧
    (handleSendText_onFailure ts s).status = AgentStatus.listening ∧
    (handleSendText_onFailure ts s).transcriptions
      = s.transcriptions ++ [entry COMM_FAILURE_TEXT .model ts] ∧
    (handleSendText_noEngine ts s).status = AgentStatus.listening ∧
    (handleSendText_noEngine ts s).transcriptions
      = s.transcriptions ++ [entry LINK_FAILURE_TEXT .model ts] ∧
    (establishSecureLine_onFailure s).status = AgentStatus.listening ∧
    (establishSecureLine_onFailure s).transcriptions = s.transcriptions ∧
    (live_onError s).status = AgentStatus.listening ∧
    (live_onError s).transcriptions = s.transcriptions ∧
    (mount_onEngineFailure s).status = AgentStatus.listening ∧
    (mount_onEngineFailure s).transcriptions = s.transcriptions :=
  ⟨rfl, rfl, rfl, rfl, rfl, rfl, rfl, rfl, rfl, rfl, rfl, rfl⟩

/-- C6: the streamed fragments accumulate in the streaming buffer, whose
value when the stream ends is their concatenation in arrival order, and
on completion exactly one model entry whose text equals that
concatenation is appended to the transcript and the buffer is cleared. -/
theorem stream_commit_is_concatenation (chunks : List (Option String)) (ts : Nat)
    (s : AgentState) :
    (runStream chunks).2 = concatFragments chunks ∧
    (commitStream chunks ts s).transcriptions
      = s.transcriptions ++ [entry (concatFragments chunks) .model ts] ∧
    (commitStream chunks ts s).streamingResponse = "" := by
  refine ⟨?_, ?_, rfl⟩
  · rw [runStream_snd_eq_fst, runStream_eq_concat]
  · simp [commitStream, runStream_eq_concat]

/-- C7 counterexample: with a prior turn outstanding, status awaiting and
no streaming text, a nonempty input still submits a turn through the
Enter key path while the SEND button is disabled, so a turn can be
submitted while a response is outstanding. -/
theorem enter_key_submits_while_awaiting :
    canSubmit SubmitPath.enterKey "Enter" "followup" "" AgentStatus.awaiting = true ∧
    canSubmit SubmitPath.button "Enter" "followup" "" AgentStatus.awaiting = false := by
  decide

/-- C7 amended: while a prior turn is outstanding the SEND button is
disabled, so no turn goes through it, but the Enter key path consults
neither the status nor the streaming buffer, so it submits exactly when
the key is Enter and the trimmed input is nonempty, regardless of the
outstanding turn. -/
theorem send_button_guarded_enter_key_not (key textIn streaming : String)
    (status : AgentStatus)
    (h : status = AgentStatus.processing ∨ status = AgentStatus.awaiting
      ∨ streaming.isEmpty = false) :
    canSubmit SubmitPath.button key textIn streaming status = false ∧
    canSubmit SubmitPath.enterKey key textIn streaming status
      = enterSubmitsTurn key textIn := by
  refine ⟨?_, rfl⟩
  rcases h with h | h | h
  · subst h; simp [canSubmit, sendDisabled]
  · subst h; simp [canSubmit, sendDisabled]
  · simp [canSubmit, sendDisabled, h]

/-- C7 amended witness at status awaiting with the input followup. -/
theorem send_button_guarded_enter_key_not_witness :
    (AgentStatus.awaiting = AgentStatus.processing
      ∨ AgentStatus.awaiting = AgentStatus.awaiting ∨ ("" : String).isEmpty = false) ∧
    (canSubmit SubmitPath.button "Enter" "followup" "" AgentStatus.awaiting = false ∧
      canSubmit SubmitPath.enterKey "Enter" "followup" "" AgentStatus.awaiting
        = enterSubmitsTurn "Enter" "followup") :=
  ⟨Or.inr (Or.inl rfl),
    send_button_guarded_enter_key_not _ _ _ _ (Or.inr (Or.inl rfl))⟩

/-- C8 counterexample: with the literal undefined credential the mount
effect leaves the initial transcript at exactly the welcome entry and
appends no synthetic error entry, against the claimed welcome text plus
one error entry. -/
theorem bad_credential_mount_has_no_error_entry :
    badCredMount.transcriptions = [entry WELCOME_TEXT .model 0] ∧
    badCredMount.transcriptions.length ≠ 2 := by
  decide

/-- C8 amended: a missing or invalid credential is detected at mount and
the status settles at listening, but the initial transcript contains
exactly the welcome entry with no error entry; the SEND button is
enabled at listening once a nonempty input is typed, and the failure is
surfaced only when the user first sends a message: that send appends the
user entry and then the link-failure entry, leaving the transcript at
welcome, user message, link failure, with the status back at listening. -/
theorem bad_credential_surfaces_on_first_send (apiKey : Option String)
    (createOk : Bool) (ts tsU tsE : Nat) (s : AgentState) (textIn : String)
    (hfail : initStrategicEngine apiKey createOk = false)
    (htext : (trimmed textIn).isEmpty = false) :
    (mountInit apiKey createOk false ts s).transcriptions
      = [entry WELCOME_TEXT .model ts] ∧
    (mountInit apiKey createOk false ts s).status = AgentStatus.listening ∧
    sendDisabled textIn "" AgentStatus.listening = false ∧
    (handleSendTextNoEngine tsU tsE
        { mountInit apiKey createOk false ts s with textInput := textIn }).transcriptions
      = [entry WELCOME_TEXT .model ts, entry (trimmed textIn) .user tsU,
          entry LINK_FAILURE_TEXT .model tsE] ∧
    (handleSendTextNoEngine tsU tsE
        { mountInit apiKey createOk false ts s with textInput := textIn }).status
      = AgentStatus.listening := by
  refine ⟨?_, ?_, ?_, ?_, ?_⟩
  · simp [mountInit, hfail]
  · simp [mountInit, hfail]
  · simp [sendDisabled, htext]
    decide
  · simp [handleSendTextNoEngine, htext, mountInit, hfail, stopAllAudio,
      handleSendText_noEngine]
  · simp [handleSendTextNoEngine, htext, mountInit, hfail, stopAllAudio,
      handleSendText_noEngine]

/-- C8 amended witness at the literal undefined credential and the retry
input typed afterwards. -/
theorem bad_credential_surfaces_on_first_send_witness :
    initStrategicEngine (some "undefined") true = false ∧
    (trimmed "retry").isEmpty = false ∧
    ((mountInit (some "undefined") true false 0 initState).transcriptions
        = [entry WELCOME_TEXT .model 0] ∧
      (mountInit (some "undefined") true false 0 initState).status
        = AgentStatus.listening ∧
      sendDisabled "retry" "" AgentStatus.listening = false ∧
      (handleSendTextNoEngine 1 2
          { mountInit (some "undefined") true false 0 initState with
            textInput := "retry" }).transcriptions
        = [entry WELCOME_TEXT .model 0, entry (trimmed "retry") .user 1,
            entry LINK_FAILURE_TEXT .model 2] ∧
      (handleSendTextNoEngine 1 2
          { mountInit (some "undefined") true false 0 initState with
            textInput := "retry" }).status = AgentStatus.listening) :=
  ⟨by decide, by decide,
    bad_credential_surfaces_on_first_send _ _ _ _ _ _ _ (by decide) (by decide)⟩

/-- C9: the transcript log is append-only: the mount write places the
welcome entry into the still-empty transcript, and every other transcript
write appends entries at the end, so the prior transcript is always a
prefix of the new one and no existing entry is mutated, reordered or
removed. -/
theorem transcript_append_only (op : TranscriptOp) (t : List Entry)
    (hmount : ∀ ts, op = TranscriptOp.mountWelcome ts → t = []) :
    ∃ new, applyTranscriptOp op t = t ++ new := by
  cases op with
  | mountWelcome ts =>
    rw [hmount ts rfl]
    exact ⟨[entry WELCOME_TEXT .model ts], rfl⟩
  | userSend msg ts => exact ⟨_, rfl⟩
  | linkFailure ts => exact ⟨_, rfl⟩
  | commitModel cs ts => exact ⟨_, rfl⟩
  | commFailure ts => exact ⟨_, rfl⟩

/-- C9 witness: a user send appended after the welcome entry. -/
theorem transcript_append_only_witness :
    (∀ ts, TranscriptOp.userSend "We need help" 5 = TranscriptOp.mountWelcome ts
      → ([entry WELCOME_TEXT .model 0] : List Entry) = []) ∧
    ∃ new, applyTranscriptOp (TranscriptOp.userSend "We need help" 5)
        [entry WELCOME_TEXT .model 0]
      = [entry WELCOME_TEXT .model 0] ++ new :=
  ⟨fun _ h => TranscriptOp.noConfusion h,
    transcript_append_only _ _ (fun _ h => TranscriptOp.noConfusion h)⟩

/-- C10: when audio output is disabled playTTS returns at once and leaves
the whole state, in particular the status, the cursor and the handle set,
unchanged; a typed turn whose stream completes therefore ends at that
playTTS call with the status still awaiting, never restored to listening,
and the SEND button, disabled at status awaiting, stays disabled. -/
theorem audio_output_disabled_sticks_awaiting (o : TTSOutcome)
    (chunks : List (Option String)) (tsU tsM : Nat) (s : AgentState) (t r : String)
    (hoff : s.audioOutputEnabled = false)
    (hmsg : (trimmed s.textInput).isEmpty = false) :
    playTTS o s = s ∧
    (handleSendTextSuccess o chunks tsU tsM s).status = AgentStatus.awaiting ∧
    sendDisabled t r AgentStatus.awaiting = true := by
  refine ⟨?_, ?_, ?_⟩
  · simp [playTTS, hoff]
  · simp [handleSendTextSuccess, hmsg, commitStream, stopAllAudio, playTTS, hoff]
  · simp [sendDisabled]

/-- C10 witness: a turn typed as hello with audio output disabled and a
successful two-fragment stream. -/
theorem audio_output_disabled_sticks_awaiting_witness :
    audioOffState.audioOutputEnabled = false ∧
    (trimmed audioOffState.textInput).isEmpty = false ∧
    (playTTS TTSOutcome.noAudio audioOffState = audioOffState ∧
      (handleSendTextSuccess TTSOutcome.noAudio [some "We", some " understand"] 3 4
          audioOffState).status = AgentStatus.awaiting ∧
      sendDisabled "next" "" AgentStatus.awaiting = true) :=
  ⟨rfl, by decide,
    audio_output_disabled_sticks_awaiting _ _ _ _ _ _ _ rfl (by decide)⟩
